import Mathlib

/-!
Verification development for the excel-training application (src/app.py).

The file shallowly embeds the core of the application:
* the Excel-semantics helper functions (`excel_left`, `excel_right`, `excel_mid`,
  `excel_substitute`, `excel_textbefore`, `excel_textafter`),
* the lookup dictionaries built by `load_data` for the MATCH/INDEX exercise,
* the MATCH / INDEX / INDEX-MATCH calculation callbacks,
* the IF / IFS conditional evaluators,
* the formula-component store, its mutation callback
  (`update_formula_structure`), the cell-selection callback
  (`handle_text_cell_selection`) and the formula evaluator
  (`calculate_text_formula_result`).

Python scalars that can appear in the stores (strings, ints, `None`, float
`nan` from pandas) are modelled by the type `Scalar`.  Machine floats other
than `nan` do not occur in the exercised code paths and are not modelled.
-/

/-- A Python scalar value as it occurs in the app's stores and tables:
a string, an int, `None`, or a pandas `nan`. -/
inductive Scalar where
  | str (s : String)
  | int (n : Int)
  | none
  | nan
deriving DecidableEq

/-- Python `str(x)`: `None` prints as "None", `nan` prints as "nan". -/
def pyStr : Scalar → String
  | .str s => s
  | .int n => toString n
  | .none => "None"
  | .nan => "nan"

/-- Model of `_to_str_safe` from app.py: `None` and `nan` become the empty string,
everything else is `str`-converted. -/
def toStrSafe : Scalar → String
  | .str s => s
  | .int n => toString n
  | .none => ""
  | .nan => ""

/-- Python `int(x)` as used inside the excel helpers, returning `none` where
Python raises `ValueError`/`TypeError` (non-numeric strings, `None`, `nan`).
Numeric strings (optional sign, then digits, surrounding blanks stripped)
parse the way Python parses them. -/
def pyIntOfChars : List Char → Option Int :=
  fun cs =>
    let cs := cs.dropWhile (· = ' ')
    let cs := (cs.reverse.dropWhile (· = ' ')).reverse
    let (sign, digits) :=
      match cs with
      | '-' :: rest => ((-1 : Int), rest)
      | '+' :: rest => ((1 : Int), rest)
      | rest => ((1 : Int), rest)
    if digits = [] then Option.none
    else if digits.all Char.isDigit then
      Option.some (sign * (Int.ofNat (digits.foldl (fun a c => a * 10 + (c.toNat - 48)) 0)))
    else Option.none

/-- Python `int(x)` on a `Scalar`; `none` models a raised
`ValueError`/`TypeError`. -/
def pyInt : Scalar → Option Int
  | .str s => pyIntOfChars s.toList
  | .int n => Option.some n
  | .none => Option.none
  | .nan => Option.none

/-- Is `needle` a contiguous sublist of `hay`?  Models Python's
substring test `needle in hay` (on the char lists). -/
def isSubList (needle : List Char) : List Char → Bool
  | [] => needle.isEmpty
  | c :: rest => needle.isPrefixOf (c :: rest) || isSubList needle rest

/-- Python substring containment `needle in hay` on strings. -/
def isSubstr (needle hay : String) : Bool :=
  isSubList needle.toList hay.toList

/-- Python `text.split(delim, 1)` when the delimiter occurs: the part before
the first occurrence and the part after it; `none` when the delimiter is
absent (Python returns a 1-element list in that case). -/
def splitFirst (d : List Char) : List Char → Option (List Char × List Char)
  | [] => Option.none
  | c :: rest =>
    if d.isPrefixOf (c :: rest) then Option.some ([], (c :: rest).drop d.length)
    else (splitFirst d rest).map (fun p => (c :: p.1, p.2))

/-- Python `text.replace(old, new)` (all non-overlapping occurrences, left to
right), driven by a fuel argument for structural recursion; fuel `s.length`
always suffices because each step consumes at least one character. -/
def replaceAllFuel (old new : List Char) : Nat → List Char → List Char
  | _, [] => []
  | 0, s => s
  | fuel + 1, c :: rest =>
    if old ≠ [] ∧ old.isPrefixOf (c :: rest) then
      new ++ replaceAllFuel old new fuel (rest.drop (old.length - 1))
    else
      c :: replaceAllFuel old new fuel rest

/-- Python `text.replace(old, new)`. -/
def replaceAll (old new s : List Char) : List Char :=
  replaceAllFuel old new s.length s

/-- Model of `excel_left` from app.py. -/
def excel_left (text num_chars : Scalar) : String :=
  let t := toStrSafe text
  match pyInt num_chars with
  | Option.none => "Error: Second argument (num_chars) must be a valid integer."
  | Option.some n =>
    if n < 0 then "Error: Number of characters cannot be negative."
    else String.mk (t.toList.take n.toNat)

/-- Model of `excel_right` from app.py. -/
def excel_right (text num_chars : Scalar) : String :=
  let t := toStrSafe text
  match pyInt num_chars with
  | Option.none => "Error: Second argument (num_chars) must be a valid integer."
  | Option.some n =>
    if n < 0 then "Error: Number of characters cannot be negative."
    else if n > 0 then String.mk (t.toList.drop (t.toList.length - n.toNat))
    else ""

/-- Model of `excel_mid` from app.py.  Here `start` is checked (against 1) before `count`
(against 0), exactly as in the source; Python's slice
`text[start-1 : start-1+num]` is `drop (start-1)` then `take num`. -/
def excel_mid (text start_num num_chars : Scalar) : String :=
  let t := toStrSafe text
  match pyInt start_num, pyInt num_chars with
  | Option.some start, Option.some num =>
    if start < 1 then "Error: Start number must be 1 or greater."
    else if num < 0 then "Error: Number of characters cannot be negative."
    else String.mk ((t.toList.drop (start.toNat - 1)).take num.toNat)
  | _, _ => "Error: Second and third arguments must be valid integers."

/-- Model of `excel_substitute` from app.py. -/
def excel_substitute (text old_text new_text : Scalar) : String :=
  let t := toStrSafe text
  let o := toStrSafe old_text
  let n := toStrSafe new_text
  if o = "" then t
  else String.mk (replaceAll o.toList n.toList t.toList)

/-- Model of `excel_textbefore` from app.py. -/
def excel_textbefore (text delimiter : Scalar) : String :=
  let t := toStrSafe text
  let d := toStrSafe delimiter
  if d = "" then ""
  else
    match splitFirst d.toList t.toList with
    | Option.none => "Error: Delimiter '" ++ d ++ "' not found in text."
    | Option.some p => String.mk p.1

/-- Model of `excel_textafter` from app.py. -/
def excel_textafter (text delimiter : Scalar) : String :=
  let t := toStrSafe text
  let d := toStrSafe delimiter
  if d = "" then t
  else
    match splitFirst d.toList t.toList with
    | Option.none => "Error: Delimiter '" ++ d ++ "' not found in text."
    | Option.some p => String.mk p.2

/-! ## Formula component model

A formula is an ordered list of component dicts
(`update_formula_structure` creates them; `calculate_text_formula_result`
walks them).  A function parameter slot holds Python `None` (unset), an int
(from a number input), a string (from a text input), or a cell-data dict
`{'ref': ..., 'value': ...}` (from a table-cell click). -/

/-- The names of the six text functions offered by the add buttons. -/
inductive FuncName where
  | LEFT | RIGHT | MID | SUBSTITUTE | TEXTBEFORE | TEXTAFTER
deriving DecidableEq

/-- Parameter arity fixed per function name (`params_structure` in app.py). -/
def funcArity : FuncName → Nat
  | .MID => 3
  | .SUBSTITUTE => 3
  | _ => 2

/-- Display name of a function. -/
def funcNameStr : FuncName → String
  | .LEFT => "LEFT"
  | .RIGHT => "RIGHT"
  | .MID => "MID"
  | .SUBSTITUTE => "SUBSTITUTE"
  | .TEXTBEFORE => "TEXTBEFORE"
  | .TEXTAFTER => "TEXTAFTER"

/-- One slot of a function component's `params` list. -/
inductive FParam where
  | unset
  | num (n : Int)
  | text (s : String)
  | cellData (ref : String) (value : Scalar)
deriving DecidableEq

/-- One formula component dict.  `cellValue`'s `value` field is a Python
value where `Scalar.none` doubles as "not yet selected" (the dict is created
with `'value': None` and a click stores the clicked cell's value, which the
evaluator again tests with `is None`), exactly as in the source. -/
inductive FComp where
  | operator (id : String)
  | literalString (id : String) (value : Option String)
  | cellValue (id : String) (ref : Option String) (value : Scalar)
  | function (id : String) (name : FuncName) (params : List FParam)
deriving DecidableEq

/-- The `'id'` field of a component. -/
def compIdOf : FComp → String
  | .operator i => i
  | .literalString i _ => i
  | .cellValue i _ _ => i
  | .function i _ _ => i

/-- The `'type'` field of a component, as the string stored in the dict. -/
def compTypeStr : FComp → String
  | .operator _ => "operator"
  | .literalString _ _ => "literal_string"
  | .cellValue _ _ _ => "cell_value"
  | .function _ _ _ => "function"

/-- Is the component an operator? -/
def isOpComp : FComp → Bool
  | .operator _ => true
  | _ => false

/-- The `processed_params` conversion for a single set slot: a cell-data dict
contributes its `'value'`, a literal contributes itself.  (`unset` slots are
filtered out before this is reached; the fallback value is irrelevant.) -/
def processedParam : FParam → Scalar
  | .unset => Scalar.none
  | .num n => Scalar.int n
  | .text s => Scalar.str s
  | .cellData _ v => v

/-- Dispatch to the excel helper for a fully-set parameter list.  The
wrong-arity fallback models the Python `TypeError` that a mis-sized argument
list would raise (caught and turned into an error by the evaluator); it is
unreachable for components built by the app, whose `params` length always
equals the function's arity. -/
def applyFunc : FuncName → List Scalar → String
  | .LEFT, [t, n] => excel_left t n
  | .RIGHT, [t, n] => excel_right t n
  | .MID, [t, a, b] => excel_mid t a b
  | .SUBSTITUTE, [t, a, b] => excel_substitute t a b
  | .TEXTBEFORE, [t, d] => excel_textbefore t d
  | .TEXTAFTER, [t, d] => excel_textafter t d
  | _, _ => "Error: wrong number of arguments"

/-! ## Formula evaluator (`calculate_text_formula_result`) -/

/-- The loop state of `calculate_text_formula_result`: the accumulated
result string, the `error_occurred` flag and the `calculation_performed`
flag. -/
structure EvalState where
  result : String
  error : Bool
  performed : Bool
deriving DecidableEq

/-- Initial loop state. -/
def initState : EvalState := ⟨"", false, false⟩

/-- The test `i == 0 or prior component type == 'operator'`, with `prev` the
component preceding the current one (`none` at position 0). -/
def prevIsNoneOrOp : Option FComp → Bool
  | Option.none => true
  | Option.some c => isOpComp c

/-- What a value component contributes: `none` means it is skipped
(unresolved cell or incomplete function), `Sum.inl s` an output string,
`Sum.inr e` a signalled error.  Mirrors the per-component body of the
evaluator loop. -/
def compContribution : FComp → Option (String ⊕ String)
  | .operator _ => Option.none
  | .literalString _ v => Option.some (Sum.inl (toStrSafe (Scalar.str (v.getD ""))))
  | .cellValue _ _ v =>
    match v with
    | Scalar.none => Option.none
    | v => Option.some (Sum.inl (toStrSafe v))
  | .function _ name params =>
    if params.any (· = FParam.unset) then Option.none
    else
      let r := applyFunc name (params.map processedParam)
      if "Error:".isPrefixOf r then Option.some (Sum.inr r)
      else Option.some (Sum.inl r)

/-- One iteration of the evaluator loop on component `c`, with `prev` the
preceding component in the list (`none` at position 0).  Once
`error_occurred` is set the loop body is skipped (`continue`). -/
def evalStep (prev : Option FComp) (st : EvalState) (c : FComp) : EvalState :=
  if st.error then st
  else
    match c with
    | .operator _ =>
      if prevIsNoneOrOp prev then
        { result := "Error: Misplaced '&' operator.", error := true, performed := st.performed }
      else st
    | c =>
      if prev ≠ Option.none ∧ prevIsNoneOrOp prev = false then
        { result := "Error: Missing '&' before " ++ compTypeStr c ++ " component.",
          error := true, performed := st.performed }
      else
        match compContribution c with
        | Option.none => st
        | Option.some (Sum.inl v) =>
          { result := st.result ++ v, error := st.error, performed := true }
        | Option.some (Sum.inr e) =>
          { result := e, error := true, performed := st.performed }

/-- The evaluator loop over the remaining components, threading the
previous component for the adjacency checks. -/
def evalComps (prev : Option FComp) (st : EvalState) : List FComp → EvalState
  | [] => st
  | c :: rest => evalComps (Option.some c) (evalStep prev st c) rest

/-- Model of `calculate_text_formula_result` from app.py: the final display string. -/
def calculate_text_formula_result (formula_data : List FComp) : String :=
  if formula_data.isEmpty then "Result: "
  else
    let st := evalComps Option.none initState formula_data
    if st.error then st.result
    else if st.performed = false then "Result: [No output yet]"
    else "Result: " ++ st.result

/-- The component preceding the next position after walking `xs`, having
entered with preceding component `p`: the last element of `xs` if any. -/
def prevAfter (p : Option FComp) (xs : List FComp) : Option FComp :=
  match xs.getLast? with
  | Option.none => p
  | Option.some c => Option.some c

/-- A component with an unresolved slot: a cell-value component whose value
is still `None`, or a function component with an unset parameter. -/
def isUnresolved : FComp → Bool
  | .cellValue _ _ Scalar.none => true
  | .function _ _ params => params.any (· = FParam.unset)
  | _ => false

/-! ## Formula mutation callback (`update_formula_structure`) -/

/-- The kind of component an add button requests (`triggered_id['index']`). -/
inductive AddType where
  | amp
  | literal
  | cell
  | fn (name : FuncName)
deriving DecidableEq

/-- Is the requested component a value-producing one (everything except the
`&` operator)? -/
def isValueAdd : AddType → Bool
  | .amp => false
  | _ => true

/-- The test `last_component_type == 'operator'` (`False` on the empty formula). -/
def lastIsOpB (f : List FComp) : Bool :=
  match f.getLast? with
  | Option.some c => isOpComp c
  | Option.none => false

/-- The add branch of `update_formula_structure`: the freshly created
component appended to the formula on success, or the structural error
message on rejection (in which case the store is left untouched). -/
def addComponent (current_formula : List FComp) (t : AddType) (component_id : String) :
    Except String (List FComp) :=
  let lastIsOp := lastIsOpB current_formula
  let can_add_value_component := current_formula.isEmpty || lastIsOp
  let can_add_operator := !current_formula.isEmpty && !lastIsOp
  match t with
  | .amp =>
    if can_add_operator then Except.ok (current_formula ++ [FComp.operator component_id])
    else Except.error "Error: Cannot start with '&' or have consecutive '&&'."
  | .literal =>
    if can_add_value_component then
      Except.ok (current_formula ++ [FComp.literalString component_id (Option.some "")])
    else Except.error "Error: Use '&' before adding LITERAL."
  | .cell =>
    if can_add_value_component then
      Except.ok (current_formula ++ [FComp.cellValue component_id Option.none Scalar.none])
    else Except.error "Error: Use '&' before adding CELL."
  | .fn name =>
    if can_add_value_component then
      Except.ok (current_formula ++
        [FComp.function component_id name (List.replicate (funcArity name) FParam.unset)])
    else
      Except.error ("Error: Cannot add " ++ funcNameStr name ++
        " here. Use '&' to connect formulas or text.")

/-- Which button triggered `update_formula_structure`. -/
inductive FormulaAction where
  | clear
  | deleteLast
  | add (t : AddType) (component_id : String)

/-- Model of `update_formula_structure` from app.py.  First output: the new formula
store value (`none` = `dash.no_update`, store unchanged); second output: the
message shown in the output display (`none` = `dash.no_update`). -/
def update_formula_structure (action : FormulaAction) (current_formula : List FComp) :
    Option (List FComp) × Option String :=
  match action with
  | .clear => (Option.some [], Option.some "Result: Formula cleared.")
  | .deleteLast =>
    match current_formula with
    | [] => (Option.none, Option.some "Result: Nothing to delete.")
    | _ => (Option.some current_formula.dropLast, Option.none)
  | .add t cid =>
    match addComponent current_formula t cid with
    | Except.ok f => (Option.some f, Option.none)
    | Except.error e => (Option.none, Option.some e)

/-- Formula stores reachable from the empty store by add-button presses
(rejected presses leave the store unchanged, so only successful ones
matter). -/
inductive ReachableByAppend : List FComp → Prop
  | nil : ReachableByAppend []
  | step (f f' : List FComp) (t : AddType) (cid : String) :
      ReachableByAppend f →
      (update_formula_structure (FormulaAction.add t cid) f).1 = Option.some f' →
      ReachableByAppend f'

/-- The adjacency invariant: no leading operator, and adjacent components
never agree on operator-ness (so no two consecutive operators and no two
adjacent value components). -/
def StructOk (f : List FComp) : Prop :=
  (∀ c, f.head? = Option.some c → isOpComp c = false) ∧
  List.Chain' (fun a b => isOpComp a ≠ isOpComp b) f

/-! ## Selection mode and cell-selection callback -/

/-- The `active_param_index` slot key: the string `'cell'` for a standalone cell-value
component, or an integer parameter index for a function component. -/
inductive ParamKey where
  | cell
  | idx (n : Nat)
deriving DecidableEq

/-- The text-tab selection-mode store. -/
structure SelectionMode where
  active_component_id : Option String
  active_param_index : Option ParamKey
deriving DecidableEq

/-- The `Idle` mode (both fields `None`). -/
def idleMode : SelectionMode := ⟨Option.none, Option.none⟩

/-- A Dash `active_cell` payload: row index and column id. -/
structure ActiveCell where
  row : Nat
  column_id : String

/-- A table row as the record dict Dash hands back: column id to value. -/
def TableRow : Type := List (String × Scalar)

/-- Python `row.get(col)` / `row[col]` on a record dict. -/
def rowGet (row : TableRow) (col : String) : Option Scalar :=
  (row.find? (fun p => decide (p.1 = col))).map (·.2)

/-- Model of `get_excel_col_name` from app.py, with fuel for structural recursion
(`n+1` steps always suffice since the loop divides by 26 each round). -/
def excelColNameFuel : Nat → Nat → String
  | 0, _ => ""
  | fuel + 1, n =>
    let c := String.mk [Char.ofNat (65 + n % 26)]
    if n < 26 then c else excelColNameFuel fuel (n / 26 - 1) ++ c

/-- Model of `get_excel_col_name` from app.py on a found (hence non-negative) index. -/
def get_excel_col_name (n : Nat) : String := excelColNameFuel (n + 1) n

/-- The slot-resolution loop of `handle_text_cell_selection`: find the
first component with the active id and store the clicked cell's
`{'ref', 'value'}` data into the targeted slot; `none` when no update
happened (component gone, type mismatch, or parameter index out of
range). -/
def resolveSlot (formula : List FComp) (cid : String) (k : ParamKey)
    (ref : String) (value : Scalar) : Option (List FComp) :=
  match formula with
  | [] => Option.none
  | c :: rest =>
    if compIdOf c = cid then
      match k, c with
      | .cell, .cellValue _ _ _ =>
        Option.some (FComp.cellValue cid (Option.some ref) value :: rest)
      | .idx i, .function _ name params =>
        if i < params.length then
          Option.some (FComp.function cid name (params.set i (FParam.cellData ref value)) :: rest)
        else Option.none
      | _, _ => Option.none
    else (resolveSlot rest cid k ref value).map (c :: ·)

/-- Model of `handle_text_cell_selection` from app.py.  Outputs: the formula store
(`none` = `dash.no_update`) and the selection-mode store (`none` =
`dash.no_update`). -/
def handle_text_cell_selection (active_cell : Option ActiveCell)
    (selection_mode : SelectionMode) (formula_data : List FComp)
    (table_data : List TableRow) (original_text_cols : List String) :
    Option (List FComp) × Option SelectionMode :=
  match active_cell, selection_mode.active_component_id, selection_mode.active_param_index with
  | Option.some cell, Option.some cid, Option.some k =>
    if cell.row < table_data.length && decide (cell.column_id ∈ original_text_cols) then
      let cell_value := ((table_data.get? cell.row).bind
        (fun r => rowGet r cell.column_id)).getD Scalar.none
      let excel_ref :=
        get_excel_col_name (original_text_cols.indexOf cell.column_id) ++ toString (cell.row + 1)
      match resolveSlot formula_data cid k excel_ref cell_value with
      | Option.some f => (Option.some f, Option.some idleMode)
      | Option.none => (Option.none, Option.some idleMode)
    else (Option.none, Option.some idleMode)
  | _, _, _ =>
    if selection_mode.active_component_id.isSome then (Option.none, Option.some idleMode)
    else (Option.none, Option.none)

/-! ## Lookup dictionaries and MATCH / INDEX / INDEX-MATCH calculations -/

/-- A row of the match table (`match.csv`): its seat and name columns, the
two key columns the exercise works with (`rowDict` stores exactly this pair
per row). -/
structure MatchRow where
  seat : String
  name : String
deriving DecidableEq

/-- Which of the two selectable match-table columns the user picked. -/
inductive KeyCol where
  | seat
  | name
deriving DecidableEq

/-- The value of a key column in a row. -/
def keyVal : KeyCol → MatchRow → String
  | .seat, r => r.seat
  | .name, r => r.name

/-- Lookup in a Python dict built by inserting the pairs in list order:
a later insertion of the same key overwrites an earlier one, so `get`
returns the value of the last matching pair. -/
def pyDictGet {α β : Type} [DecidableEq α] (pairs : List (α × β)) (k : α) : Option β :=
  (pairs.reverse.find? (fun q => decide (q.1 = k))).map (·.2)

/-- The insertion sequence of the `load_data` loop for `seatDict`/`nameDict`:
`(row's key value, index + 1)` with `n` the number of already-processed
rows. -/
def matchPairsAux (kc : KeyCol) : Nat → List MatchRow → List (String × Nat)
  | _, [] => []
  | n, r :: rest => (keyVal kc r, n + 1) :: matchPairsAux kc (n + 1) rest

/-- The insertion sequence of the `load_data` loop for `rowDict`:
`(index + 1, [seat, name])`. -/
def rowPairsAux : Nat → List MatchRow → List (Nat × MatchRow)
  | _, [] => []
  | n, r :: rest => (n + 1, r) :: rowPairsAux (n + 1) rest

/-- Lookup `seatDict.get v` / `nameDict.get v`: the 1-based row number the loaded
dictionary maps the key value to. -/
def matchLookup (t : List MatchRow) (kc : KeyCol) (v : String) : Option Nat :=
  pyDictGet (matchPairsAux kc 0 t) v

/-- Lookup `rowDict.get r`: the `[seat, name]` pair stored for row number `r`. -/
def rowLookup (t : List MatchRow) (r : Nat) : Option MatchRow :=
  pyDictGet (rowPairsAux 0 t) r

/-- Model of `calculate_match_result` from app.py (the selected column is one of the
two valid match-table columns, as enforced at selection time; `none` models
an unset store/input, and Python's falsy check also rejects the empty
lookup string). -/
def calculate_match_result (t : List MatchRow) (selected_col : Option KeyCol)
    (lookup_value : Option String) : String :=
  match selected_col with
  | Option.none => "Result: Error: Select ARRAY column."
  | Option.some kc =>
    match lookup_value with
    | Option.none => "Result: Error: Enter VALUE."
    | Option.some v =>
      if v = "" then "Result: Error: Enter VALUE."
      else
        match matchLookup t kc v with
        | Option.some r => "Result: " ++ toString r
        | Option.none => "Result: #N/A (no match found)"

/-- Model of `calculate_index_result` from app.py (position input already parsed to
an int by the number widget; a non-positive value takes the `ValueError`
branch). -/
def calculate_index_result (t : List MatchRow) (selected_col : Option KeyCol)
    (position_input : Option Int) : String :=
  match selected_col with
  | Option.none => "Result: Error: Select ARRAY column."
  | Option.some kc =>
    match position_input with
    | Option.none => "Result: Error: Enter POSITION number."
    | Option.some p =>
      if p ≤ 0 then "Result: Error: Position must be a positive number."
      else
        match rowLookup t p.toNat with
        | Option.some row => "Result: " ++ keyVal kc row
        | Option.none => "Result: #N/A (position " ++ toString p ++ " not found)"

/-- Model of `pd.isna` on a scalar. -/
def isNa : Scalar → Bool
  | Scalar.nan => true
  | Scalar.none => true
  | _ => false

/-- The `im-index-param-store` payload (result-column index). -/
structure IMIndexData where
  col_index : Nat

/-- The `im-match-param-1-store` payload (clicked lookup value). -/
structure IMMatch1 where
  cell_value : Scalar

/-- The `im-match-param-2-store` payload (lookup-column index). -/
structure IMMatch2 where
  col_index : Nat

/-- The name used for the bioguide column in the no-match message
(`original_b_cols_list[BIOGUIDE_COL_INDEX_B]`, falling back to the
constant). -/
def bioColName (b_cols : List String) (bioIdx : Int) : String :=
  match b_cols.get? bioIdx.toNat with
  | Option.some s => s
  | Option.none => "bioguide"

/-- Model of `calculate_im_result` from app.py.  `bioIdx` is the module-level
`BIOGUIDE_COL_INDEX_B` (`-1` when data loading failed), `sheetB_dict` the
bioguide-keyed row dictionary. -/
def calculate_im_result (bioIdx : Int) (b_cols : List String)
    (sheetB_dict : Scalar → Option (List Scalar))
    (index_data : Option IMIndexData) (match1_data : Option IMMatch1)
    (match2_data : Option IMMatch2) : String :=
  match index_data, match1_data, match2_data with
  | Option.some i, Option.some m1, Option.some m2 =>
    if bioIdx = -1 then "Result: Config Error: Bioguide index not found."
    else if (m2.col_index : Int) ≠ bioIdx then
      "Result: Error: Your lookup column does not contain the lookup value. Try choosing another column."
    else
      match sheetB_dict m1.cell_value with
      | Option.none =>
        "Result: No match found for '" ++ pyStr m1.cell_value ++ "' in '" ++
          bioColName b_cols bioIdx ++ "' column."
      | Option.some row =>
        match row.get? i.col_index with
        | Option.some v => "Result: " ++ (if isNa v then "[Blank]" else pyStr v)
        | Option.none =>
          "Result: Error: Result column index (" ++ toString i.col_index ++
            ") out of bounds (max " ++ toString ((row.length : Int) - 1) ++ ")."
  | _, _, _ => "Result: Error: Please select all parts of the formula."

/-! ## Conditional evaluators (IF / IFS) -/

/-- The cell-data payload stored for the dynamic-column parameters of the
conditional evaluators (`{'ref', 'value', 'column_id'}`; the ref plays no
role in the calculation). -/
structure CondCellSel where
  value : Scalar
  column_id : String

/-- The per-row branch selection of `calculate_ifs_results`
(`str(value) == str(literal)` comparisons, first match wins, else the
default). -/
def ifsBranch (v : Scalar) (p2 p3 p5 p6 p7 : String) : String :=
  if pyStr v = p2 then p3 else if pyStr v = p5 then p6 else p7

/-- The row loop of `calculate_ifs_results`: one numbered line per row;
`none` models the `KeyError` raised when the selected column is missing
from a row (which aborts the whole calculation). -/
def ifsLinesAux (col : String) (p2 p3 p5 p6 p7 : String) :
    Nat → List TableRow → Option (List String)
  | _, [] => Option.some []
  | n, row :: rest =>
    match rowGet row col with
    | Option.none => Option.none
    | Option.some v =>
      (ifsLinesAux col p2 p3 p5 p6 p7 (n + 1) rest).map
        (fun ls => (toString n ++ ". " ++ ifsBranch v p2 p3 p5 p6 p7) :: ls)

/-- Model of `calculate_ifs_results` from app.py. -/
def calculate_ifs_results (df_conditional : List TableRow)
    (p1 : Option CondCellSel) (p2 p3 : Option String) (p4 : Option CondCellSel)
    (p5 p6 p7 : Option String) : String :=
  match p1, p2, p3, p4, p5, p6, p7 with
  | Option.some c1, Option.some q2, Option.some q3, Option.some _,
    Option.some q5, Option.some q6, Option.some q7 =>
    let col := c1.column_id
    match ifsLinesAux col q2 q3 q5 q6 q7 1 df_conditional with
    | Option.some lines => String.intercalate "\n" ("Results:" :: lines)
    | Option.none => "Results: Error - Column '" ++ col ++ "' missing in data."
  | _, _, _, _, _, _, _ => "Results: Error - Please fill in all formula parts."

/-- The false-branch seat formatting of `calculate_if_results`:
`TEXTBEFORE(seat, "-")`, falling back to the original seat value whenever
the helper's return value contains `"Error:"`. -/
def ifFalseSeatInfo (seat : Scalar) : Scalar :=
  let seat_info := excel_textbefore seat (Scalar.str "-")
  if isSubstr "Error:" seat_info then seat else Scalar.str seat_info

/-- One row of the `calculate_if_results` loop (without the line number):
the formatted string, or `none` for a `KeyError` on a missing column. -/
def ifRowLine (p2 p3 p4 : String) (col : String) (row : TableRow) : Option String :=
  match rowGet row col, rowGet row "name", rowGet row "party", rowGet row "seat" with
  | Option.some v, Option.some nm, Option.some pty, Option.some st =>
    if pyStr v = p2 then
      Option.some (p3 ++ pyStr nm ++ " (" ++ excel_left pty (Scalar.int 1) ++ "-" ++
        pyStr st ++ ")")
    else
      Option.some (p4 ++ pyStr nm ++ " (" ++ excel_left pty (Scalar.int 1) ++ "-" ++
        pyStr (ifFalseSeatInfo st) ++ ")")
  | _, _, _, _ => Option.none

/-- The row loop of `calculate_if_results`. -/
def ifLinesAux (p2 p3 p4 : String) (col : String) :
    Nat → List TableRow → Option (List String)
  | _, [] => Option.some []
  | n, row :: rest =>
    match ifRowLine p2 p3 p4 col row with
    | Option.none => Option.none
    | Option.some line =>
      (ifLinesAux p2 p3 p4 col (n + 1) rest).map
        (fun ls => (toString n ++ ". " ++ line) :: ls)

/-- Model of `calculate_if_results` from app.py. -/
def calculate_if_results (df_conditional : List TableRow)
    (param1_data : Option CondCellSel) (param2_val param3_val param4_val : Option String) :
    String :=
  match param1_data, param2_val, param3_val, param4_val with
  | Option.some c1, Option.some q2, Option.some q3, Option.some q4 =>
    let col := c1.column_id
    match ifLinesAux q2 q3 q4 col 1 df_conditional with
    | Option.some lines => String.intercalate "\n" ("Results:" :: lines)
    | Option.none => "Results: Error - Column '" ++ col ++ "' missing in data."
  | _, _, _, _ =>
    "Results: Error - Please fill in all formula parts using the first row."

/-! ## Sanity checks on concrete inputs (scenarios from the spec) -/

example : excel_mid (.str "Robert") (.int 2) (.int 4) = "ober" := by decide
example : excel_mid (.str "Robert") (.int 0) (.int 4) =
    "Error: Start number must be 1 or greater." := by decide
example : excel_textbefore (.str "AK-AL") (.str "-") = "AK" := by decide
example : excel_textbefore (.str "Vermont") (.str "-") =
    "Error: Delimiter '-' not found in text." := by decide
example : excel_left (.str "Republican") (.int 1) = "R" := by decide
example : excel_substitute (.str "banana") (.str "na") (.str "NA") = "baNANA" := by decide

example : calculate_text_formula_result [] = "Result: " := by decide

example :
    calculate_text_formula_result
      [FComp.function "f1" .LEFT [.cellData "C1" (.str "Republican"), .num 1],
       FComp.operator "o1",
       FComp.literalString "l1" (Option.some "-"),
       FComp.operator "o2",
       FComp.function "f2" .TEXTBEFORE [.cellData "A1" (.str "AK-AL"), .text "-"]] =
      "Result: R-AK" := by decide

example :
    calculate_text_formula_result [FComp.operator "o1"] =
      "Error: Misplaced '&' operator." := by decide

example :
    calculate_text_formula_result
      [FComp.cellValue "c1" Option.none Scalar.none] = "Result: [No output yet]" := by
  decide

example :
    calculate_ifs_results
      [[("party", Scalar.str "Independent"), ("name", Scalar.str "X")]]
      (Option.some ⟨Scalar.str "Democrat", "party"⟩)
      (Option.some "Democrat") (Option.some "blue")
      (Option.some ⟨Scalar.str "Democrat", "party"⟩)
      (Option.some "Republican") (Option.some "red") (Option.some "yellow") =
      "Results:\n1. yellow" := by decide

example :
    calculate_if_results
      [[("chamber", Scalar.str "Senate"), ("name", Scalar.str "Nick Begich"),
        ("party", Scalar.str "Republican"), ("seat", Scalar.str "AK-AL")]]
      (Option.some ⟨Scalar.str "House", "chamber"⟩)
      (Option.some "House") (Option.some "Rep. ") (Option.some "Sen. ") =
      "Results:\n1. Sen. Nick Begich (R-AK)" := by decide

/-! ## Evaluator lemmas -/

lemma evalStep_of_error (prev : Option FComp) (st : EvalState) (c : FComp)
    (h : st.error = true) : evalStep prev st c = st := by
  simp [evalStep, h]

lemma evalComps_of_error (xs : List FComp) (prev : Option FComp) (st : EvalState)
    (h : st.error = true) : evalComps prev st xs = st := by
  induction xs generalizing prev st with
  | nil => rfl
  | cons c rest ih =>
    rw [evalComps, evalStep_of_error _ _ _ h]
    exact ih _ _ h

lemma prevAfter_cons (p : Option FComp) (c : FComp) (rest : List FComp) :
    prevAfter p (c :: rest) = prevAfter (Option.some c) rest := by
  cases rest with
  | nil => rfl
  | cons d t =>
    unfold prevAfter
    rw [List.getLast?_cons_cons]
    cases h : (d :: t).getLast? with
    | none => simp at h
    | some e => rfl

lemma evalComps_append (xs ys : List FComp) (p : Option FComp) (st : EvalState) :
    evalComps p st (xs ++ ys) = evalComps (prevAfter p xs) (evalComps p st xs) ys := by
  induction xs generalizing p st with
  | nil => rfl
  | cons c rest ih =>
    rw [List.cons_append, evalComps, ih, prevAfter_cons, evalComps]

/-- C1: the evaluator walks the component sequence left to right and, at
the first component whose processing raises an error (a misplaced `&`, a
value component whose predecessor is not an operator, or an error string
returned by a resolved function), it stops contributing output: whatever
was accumulated before is discarded and the final displayed result is
exactly the error produced at that step, no matter what components follow. -/
theorem first_error_short_circuits (pre : List FComp) (c : FComp) (post : List FComp)
    (hpre : (evalComps Option.none initState pre).error = false)
    (herr : (evalStep (prevAfter Option.none pre)
      (evalComps Option.none initState pre) c).error = true) :
    calculate_text_formula_result (pre ++ c :: post) =
      (evalStep (prevAfter Option.none pre) (evalComps Option.none initState pre) c).result := by
  have hsplit : evalComps Option.none initState (pre ++ c :: post)
      = evalStep (prevAfter Option.none pre) (evalComps Option.none initState pre) c := by
    rw [evalComps_append]
    rw [show evalComps (prevAfter Option.none pre) (evalComps Option.none initState pre)
        (c :: post) = evalComps (Option.some c)
          (evalStep (prevAfter Option.none pre) (evalComps Option.none initState pre) c)
          post from rfl]
    exact evalComps_of_error _ _ _ herr
  have hne : (pre ++ c :: post).isEmpty = false := by
    cases pre <;> simp [List.isEmpty]
  rw [calculate_text_formula_result, hne]
  simp only [Bool.false_eq_true, if_false, hsplit, herr, if_true]

/-- Witness for C1 at a concrete input: a leading operator is the first
error and the trailing literal never affects the output. -/
theorem first_error_short_circuits_witness :
    calculate_text_formula_result
      [FComp.operator "o1", FComp.literalString "l1" (Option.some "x")] =
      "Error: Misplaced '&' operator." :=
  (first_error_short_circuits [] (FComp.operator "o1")
    [FComp.literalString "l1" (Option.some "x")] (by decide) (by decide)).trans (by decide)

/-- C2 counterexample: two unresolved cell-value components in sequence.
The claim says an unresolved `CellValue` is always skipped without raising
an error and that a non-empty sequence in which no component contributes
output evaluates to "Result: [No output yet]"; but the adjacency check runs
before the skip, so the second unresolved cell raises the missing-`&` error
and that error string — not "[No output yet]" — is displayed. -/
theorem unresolved_skip_counterexample :
    calculate_text_formula_result
        [FComp.cellValue "a" Option.none Scalar.none,
         FComp.cellValue "b" Option.none Scalar.none] =
      "Error: Missing '&' before cell_value component." ∧
    calculate_text_formula_result
        [FComp.cellValue "a" Option.none Scalar.none,
         FComp.cellValue "b" Option.none Scalar.none] ≠
      "Result: [No output yet]" ∧
    (evalComps Option.none initState
        [FComp.cellValue "a" Option.none Scalar.none,
         FComp.cellValue "b" Option.none Scalar.none]).performed = false := by
  refine ⟨by decide, by decide, by decide⟩

/-- C2 (amended): an unresolved `CellValue` or `FunctionCall` component is
skipped without error *when it sits in a structurally valid position*
(first, or right after an operator); the empty sequence displays
"Result: "; and *provided no error occurred during the walk*, a non-empty
sequence in which nothing contributed displays "Result: [No output yet]"
while a walk with contributions displays "Result: " followed by the
accumulated string. -/
theorem unresolved_skipped_and_final_display :
    (∀ (prev : Option FComp) (st : EvalState) (c : FComp),
      prevIsNoneOrOp prev = true → isUnresolved c = true → evalStep prev st c = st) ∧
    calculate_text_formula_result [] = "Result: " ∧
    (∀ f : List FComp, f ≠ [] →
      (evalComps Option.none initState f).error = false →
      (evalComps Option.none initState f).performed = false →
      calculate_text_formula_result f = "Result: [No output yet]") ∧
    (∀ f : List FComp, f ≠ [] →
      (evalComps Option.none initState f).error = false →
      (evalComps Option.none initState f).performed = true →
      calculate_text_formula_result f = "Result: " ++ (evalComps Option.none initState f).result) := by
  refine ⟨?_, rfl, ?_, ?_⟩
  · intro prev st c hprev hunres
    by_cases herr : st.error = true
    · exact evalStep_of_error _ _ _ herr
    · cases c with
      | operator id => simp [isUnresolved] at hunres
      | literalString id v => simp [isUnresolved] at hunres
      | cellValue id ref v =>
        cases v <;> simp_all [isUnresolved, evalStep, compContribution, hprev]
      | function id name params =>
        have hany : params.any (· = FParam.unset) = true := by
          simpa [isUnresolved] using hunres
        simp [evalStep, herr, hprev, compContribution, hany]
  · intro f hf herr hperf
    have hne : f.isEmpty = false := by cases f <;> simp_all [List.isEmpty]
    rw [calculate_text_formula_result, hne]
    simp [herr, hperf]
  · intro f hf herr hperf
    have hne : f.isEmpty = false := by cases f <;> simp_all [List.isEmpty]
    rw [calculate_text_formula_result, hne]
    simp [herr, hperf]

/-- Witness for the amended C2 at concrete inputs: an unresolved cell in
first position is skipped unchanged, and a one-component unresolved
formula displays "[No output yet]". -/
theorem unresolved_skipped_and_final_display_witness :
    evalStep Option.none initState (FComp.cellValue "a" Option.none Scalar.none) = initState ∧
    calculate_text_formula_result [FComp.cellValue "a" Option.none Scalar.none] =
      "Result: [No output yet]" :=
  ⟨unresolved_skipped_and_final_display.1 Option.none initState
      (FComp.cellValue "a" Option.none Scalar.none) (by decide) (by decide),
    unresolved_skipped_and_final_display.2.2.1
      [FComp.cellValue "a" Option.none Scalar.none] (by decide) (by decide) (by decide)⟩

/-! ## Lemmas about `update_formula_structure` -/

lemma getLast?_eq_none_iff_nil (f : List FComp) : f.getLast? = Option.none ↔ f = [] := by
  cases f with
  | nil => simp
  | cons a t => simp [List.getLast?_eq_none_iff]

lemma isEmpty_false_of_getLast?_some (f : List FComp) (c : FComp)
    (h : f.getLast? = Option.some c) : f.isEmpty = false := by
  cases f with
  | nil => simp at h
  | cons a t => rfl

lemma add_ok_cases (f : List FComp) (t : AddType) (cid : String) (f' : List FComp)
    (h : (update_formula_structure (FormulaAction.add t cid) f).1 = Option.some f') :
    ∃ newc, f' = f ++ [newc] ∧
      ((isOpComp newc = true ∧
          ∃ lastc, f.getLast? = Option.some lastc ∧ isOpComp lastc = false) ∨
        (isOpComp newc = false ∧
          (f = [] ∨ ∃ lastc, f.getLast? = Option.some lastc ∧ isOpComp lastc = true))) := by
  cases hl : f.getLast? with
  | none =>
    have hf : f = [] := (getLast?_eq_none_iff_nil f).mp hl
    subst hf
    cases t <;> simp [update_formula_structure, addComponent, lastIsOpB] at h <;>
      exact ⟨_, h.symm, Or.inr ⟨rfl, Or.inl rfl⟩⟩
  | some lastc =>
    have he : f.isEmpty = false := isEmpty_false_of_getLast?_some f lastc hl
    cases hop : isOpComp lastc with
    | false =>
      cases t <;> simp [update_formula_structure, addComponent, lastIsOpB, hl, he, hop] at h
      exact ⟨_, h.symm, Or.inl ⟨rfl, lastc, rfl, hop⟩⟩
    | true =>
      cases t <;> simp [update_formula_structure, addComponent, lastIsOpB, hl, he, hop] at h <;>
        exact ⟨_, h.symm, Or.inr ⟨rfl, Or.inr ⟨lastc, rfl, hop⟩⟩⟩

lemma structOk_append (f : List FComp) (c : FComp) (hok : StructOk f)
    (hcond : ∀ lastc, f.getLast? = Option.some lastc → isOpComp lastc ≠ isOpComp c)
    (hhead : f = [] → isOpComp c = false) :
    StructOk (f ++ [c]) := by
  obtain ⟨hh, hch⟩ := hok
  constructor
  · intro d hd
    cases f with
    | nil =>
      simp at hd
      subst hd
      exact hhead rfl
    | cons a t =>
      have had : d = a := by
        rw [List.cons_append, List.head?_cons] at hd
        injection hd with h
        exact h.symm
      exact had ▸ hh a rfl
  · rw [List.chain'_append]
    refine ⟨hch, List.chain'_singleton c, ?_⟩
    intro x hx y hy
    simp at hy
    exact hy ▸ hcond x (by simpa using hx)

/-- C3: an append that would violate the adjacency invariant is rejected —
the store output is `no_update` (no mutation) and an error message is
emitted — exactly when: an operator is appended to an empty sequence or
after an operator; or a value component (literal, cell, function) is
appended after a non-operator.  Consequently every sequence reachable from
the empty one by appends has no leading operator, no two consecutive
operators, and no two adjacent value components. -/
theorem append_adjacency_guard :
    (∀ (f : List FComp) (a : FormulaAction),
      (update_formula_structure a f).1 = Option.none →
      ∃ e, (update_formula_structure a f).2 = Option.some e) ∧
    (∀ (f : List FComp) (cid : String),
      (update_formula_structure (FormulaAction.add AddType.amp cid) f).1 = Option.none ↔
        (f = [] ∨ ∃ c, f.getLast? = Option.some c ∧ isOpComp c = true)) ∧
    (∀ (f : List FComp) (t : AddType) (cid : String), isValueAdd t = true →
      ((update_formula_structure (FormulaAction.add t cid) f).1 = Option.none ↔
        ∃ c, f.getLast? = Option.some c ∧ isOpComp c = false)) ∧
    (∀ f : List FComp, ReachableByAppend f → StructOk f) := by
  refine ⟨?_, ?_, ?_, ?_⟩
  · intro f a h
    cases a with
    | clear => simp [update_formula_structure] at h
    | deleteLast =>
      cases f with
      | nil => exact ⟨_, rfl⟩
      | cons c t => simp [update_formula_structure] at h
    | add t cid =>
      cases ha : addComponent f t cid with
      | ok f' => simp [update_formula_structure, ha] at h
      | error e => exact ⟨e, by simp [update_formula_structure, ha]⟩
  · intro f cid
    cases hl : f.getLast? with
    | none =>
      have hf : f = [] := (getLast?_eq_none_iff_nil f).mp hl
      subst hf
      simp [update_formula_structure, addComponent, lastIsOpB]
    | some lastc =>
      have he : f.isEmpty = false := isEmpty_false_of_getLast?_some f lastc hl
      have hf : f ≠ [] := by
        intro hnil
        rw [hnil] at hl
        simp at hl
      have hLB : lastIsOpB f = isOpComp lastc := by simp [lastIsOpB, hl]
      cases hop : isOpComp lastc <;>
        simp [update_formula_structure, addComponent, he, hLB, hop, hl, hf]
  · intro f t cid hv
    cases hl : f.getLast? with
    | none =>
      have hf : f = [] := (getLast?_eq_none_iff_nil f).mp hl
      subst hf
      cases t <;>
        simp [update_formula_structure, addComponent, lastIsOpB, isValueAdd] at hv ⊢
    | some lastc =>
      have he : f.isEmpty = false := isEmpty_false_of_getLast?_some f lastc hl
      have hLB : lastIsOpB f = isOpComp lastc := by simp [lastIsOpB, hl]
      cases hop : isOpComp lastc <;>
        cases t <;>
          simp [update_formula_structure, addComponent, he, hLB, hop, hl,
            isValueAdd] at hv ⊢
  · intro f h
    induction h with
    | nil => exact ⟨fun c hc => by simp at hc, List.chain'_nil⟩
    | step f f' t cid hr hupd ih =>
      obtain ⟨newc, hf', hcases⟩ := add_ok_cases f t cid f' hupd
      subst hf'
      cases hcases with
      | inl hop =>
        obtain ⟨hnew, lastc, hlast, hlop⟩ := hop
        refine structOk_append f newc ih ?_ ?_
        · intro d hd
          rw [hlast] at hd
          injection hd with hd
          subst hd
          rw [hlop, hnew]
          simp
        · intro hnil
          rw [hnil] at hlast
          simp at hlast
      | inr hval =>
        obtain ⟨hnew, hrest⟩ := hval
        refine structOk_append f newc ih ?_ (fun _ => hnew)
        intro d hd
        cases hrest with
        | inl hnil =>
          rw [hnil] at hd
          simp at hd
        | inr hex =>
          obtain ⟨lastc, hlast, hlop⟩ := hex
          rw [hlast] at hd
          injection hd with hd
          subst hd
          rw [hlop, hnew]
          simp

/-- Witness for C3 at concrete inputs: a leading operator is rejected with
a message, two adjacent values are rejected, and the two-component sequence
built by two successful appends satisfies the invariant. -/
theorem append_adjacency_guard_witness :
    (∃ e, (update_formula_structure (FormulaAction.add AddType.amp "x") []).2 =
      Option.some e) ∧
    ((update_formula_structure (FormulaAction.add AddType.cell "y")
      [FComp.literalString "a" (Option.some "")]).1 = Option.none) ∧
    StructOk [FComp.literalString "a" (Option.some ""), FComp.operator "b"] :=
  ⟨append_adjacency_guard.1 [] (FormulaAction.add AddType.amp "x") (by decide),
    (append_adjacency_guard.2.2.1 [FComp.literalString "a" (Option.some "")]
      AddType.cell "y" (by decide)).mpr
      ⟨FComp.literalString "a" (Option.some ""), by decide, by decide⟩,
    append_adjacency_guard.2.2.2 _
      (ReachableByAppend.step [FComp.literalString "a" (Option.some "")]
        [FComp.literalString "a" (Option.some ""), FComp.operator "b"] AddType.amp "b"
        (ReachableByAppend.step [] [FComp.literalString "a" (Option.some "")]
          AddType.literal "a" ReachableByAppend.nil (by decide))
        (by decide))⟩

/-- C4: on integer arguments, `excel_mid` checks `start < 1` first
(`InvalidStart` message), then `count < 0` (`NegativeCount` message), and
otherwise returns the 1-based substring of length `count` clipped to the
text bounds; a numeric argument that is not an integer fails with the
`InvalidArgument` message.  The spec's concrete scenarios
`MID("Robert", 2, 4) = "ober"` and `MID("Robert", 0, 4) = InvalidStart`
are included. -/
theorem excel_mid_spec :
    (∀ (s : String) (start count : Int), 1 ≤ start → 0 ≤ count →
      excel_mid (Scalar.str s) (Scalar.int start) (Scalar.int count) =
        String.mk ((s.toList.drop (start.toNat - 1)).take count.toNat)) ∧
    excel_mid (Scalar.str "Robert") (Scalar.int 2) (Scalar.int 4) = "ober" ∧
    (∀ (s : String) (start count : Int), start < 1 →
      excel_mid (Scalar.str s) (Scalar.int start) (Scalar.int count) =
        "Error: Start number must be 1 or greater.") ∧
    excel_mid (Scalar.str "Robert") (Scalar.int 0) (Scalar.int 4) =
      "Error: Start number must be 1 or greater." ∧
    (∀ (s : String) (start count : Int), 1 ≤ start → count < 0 →
      excel_mid (Scalar.str s) (Scalar.int start) (Scalar.int count) =
        "Error: Number of characters cannot be negative.") ∧
    (∀ (s : String) (a b : Scalar), pyInt a = Option.none →
      excel_mid (Scalar.str s) a b =
        "Error: Second and third arguments must be valid integers.") ∧
    (∀ (s : String) (a b : Scalar), pyInt b = Option.none →
      excel_mid (Scalar.str s) a b =
        "Error: Second and third arguments must be valid integers.") := by
  refine ⟨?_, by decide, ?_, by decide, ?_, ?_, ?_⟩
  · intro s start count h1 h2
    have hs : ¬ start < 1 := by omega
    have hc : ¬ count < 0 := by omega
    simp [excel_mid, pyInt, toStrSafe, hs, hc]
  · intro s start count h1
    simp [excel_mid, pyInt, toStrSafe, h1]
  · intro s start count h1 h2
    have hs : ¬ start < 1 := by omega
    simp [excel_mid, pyInt, toStrSafe, hs, h2]
  · intro s a b h
    rw [excel_mid, h]
  · intro s a b h
    rw [excel_mid, h]
    cases pyInt a <;> rfl

/-- Witness for C4 at concrete inputs, exercising every hypothesis. -/
theorem excel_mid_spec_witness :
    excel_mid (Scalar.str "Robert") (Scalar.int 2) (Scalar.int 4) =
      String.mk ((("Robert" : String).toList.drop ((2 : Int).toNat - 1)).take (4 : Int).toNat) ∧
    excel_mid (Scalar.str "Robert") (Scalar.int 0) (Scalar.int 4) =
      "Error: Start number must be 1 or greater." ∧
    excel_mid (Scalar.str "Robert") (Scalar.int 2) (Scalar.int (-1)) =
      "Error: Number of characters cannot be negative." ∧
    excel_mid (Scalar.str "Robert") (Scalar.str "two") (Scalar.int 4) =
      "Error: Second and third arguments must be valid integers." ∧
    excel_mid (Scalar.str "Robert") (Scalar.int 2) Scalar.nan =
      "Error: Second and third arguments must be valid integers." :=
  ⟨excel_mid_spec.1 "Robert" 2 4 (by decide) (by decide),
    excel_mid_spec.2.2.1 "Robert" 0 4 (by decide),
    excel_mid_spec.2.2.2.2.1 "Robert" 2 (-1) (by decide) (by decide),
    excel_mid_spec.2.2.2.2.2.1 "Robert" (Scalar.str "two") (Scalar.int 4) (by decide),
    excel_mid_spec.2.2.2.2.2.2 "Robert" (Scalar.int 2) Scalar.nan (by decide)⟩

/-- C5: with all three INDEX/MATCH parameters set and the bioguide key
column present, selecting any MATCH column other than the bioguide column
yields the `KeyColumnMismatch` error, and the result is independent of the
lookup value and of the lookup dictionary (no lookup is performed). -/
theorem im_key_column_guardrail (bioIdx : Int) (b_cols : List String)
    (d d' : Scalar → Option (List Scalar)) (i : IMIndexData) (v v' : Scalar)
    (m2 : IMMatch2) (hbio : 0 ≤ bioIdx) (hne : (m2.col_index : Int) ≠ bioIdx) :
    calculate_im_result bioIdx b_cols d (Option.some i) (Option.some ⟨v⟩)
        (Option.some m2) =
      "Result: Error: Your lookup column does not contain the lookup value. Try choosing another column." ∧
    calculate_im_result bioIdx b_cols d (Option.some i) (Option.some ⟨v⟩)
        (Option.some m2) =
      calculate_im_result bioIdx b_cols d' (Option.some i) (Option.some ⟨v'⟩)
        (Option.some m2) := by
  have hne1 : bioIdx ≠ -1 := by omega
  constructor <;> simp [calculate_im_result, hne1, hne]

/-- Witness for C5: MATCH column index 2 while the bioguide column is at
index 0, two different lookup values and two different dictionaries. -/
theorem im_key_column_guardrail_witness :
    calculate_im_result 0 ["bioguide", "name", "party"] (fun _ => Option.none)
        (Option.some ⟨1⟩) (Option.some ⟨Scalar.str "A000000"⟩) (Option.some ⟨2⟩) =
      "Result: Error: Your lookup column does not contain the lookup value. Try choosing another column." ∧
    calculate_im_result 0 ["bioguide", "name", "party"] (fun _ => Option.none)
        (Option.some ⟨1⟩) (Option.some ⟨Scalar.str "A000000"⟩) (Option.some ⟨2⟩) =
      calculate_im_result 0 ["bioguide", "name", "party"]
        (fun _ => Option.some [Scalar.str "A000000", Scalar.str "Nick", Scalar.str "R"])
        (Option.some ⟨1⟩) (Option.some ⟨Scalar.str "B000001"⟩) (Option.some ⟨2⟩) :=
  im_key_column_guardrail 0 ["bioguide", "name", "party"] (fun _ => Option.none)
    (fun _ => Option.some [Scalar.str "A000000", Scalar.str "Nick", Scalar.str "R"])
    ⟨1⟩ (Scalar.str "A000000") (Scalar.str "B000001") ⟨2⟩ (by decide) (by decide)

/-- C8: whenever a table-cell click event is processed while the selection
mode is Listening (both an active component id and an active slot are set),
the selection-mode store is reset to Idle (both fields `None`) — after a
successful resolution, after an invalid or out-of-bounds click, and after a
failed resolution — and the formula store changes only through a successful
slot resolution (`dash.no_update` in every non-success case). -/
theorem listening_click_resets_to_idle (active_cell : Option ActiveCell)
    (mode : SelectionMode) (formula : List FComp) (table : List TableRow)
    (cols : List String) (cid : String) (k : ParamKey)
    (h1 : mode.active_component_id = Option.some cid)
    (h2 : mode.active_param_index = Option.some k) :
    (handle_text_cell_selection active_cell mode formula table cols).2 =
      Option.some idleMode ∧
    ((handle_text_cell_selection active_cell mode formula table cols).1 =
        Option.none ∨
      ∃ ref v f', resolveSlot formula cid k ref v = Option.some f' ∧
        (handle_text_cell_selection active_cell mode formula table cols).1 =
          Option.some f') := by
  unfold handle_text_cell_selection
  rw [h1, h2]
  cases active_cell with
  | none => exact ⟨rfl, Or.inl rfl⟩
  | some cell =>
    cases hb : (cell.row < table.length && decide (cell.column_id ∈ cols)) with
    | false => simp [hb]
    | true =>
      cases hr : resolveSlot formula cid k
          (get_excel_col_name (cols.indexOf cell.column_id) ++ toString (cell.row + 1))
          ((table[cell.row]?.bind (fun r => rowGet r cell.column_id)).getD
            Scalar.none) with
      | none => simp [hb, hr]
      | some f' =>
        exact ⟨by simp [hb, hr], Or.inr ⟨_, _, f', hr, by simp [hb, hr]⟩⟩

/-- Witness for C8 at a concrete input: a successful resolution of a
listening cell-value slot resets the mode to Idle. -/
theorem listening_click_resets_to_idle_witness :
    (handle_text_cell_selection (Option.some ⟨0, "text"⟩)
        ⟨Option.some "c1", Option.some ParamKey.cell⟩
        [FComp.cellValue "c1" Option.none Scalar.none]
        [[("text", Scalar.str "hello")]] ["text"]).2 = Option.some idleMode ∧
    ((handle_text_cell_selection (Option.some ⟨0, "text"⟩)
        ⟨Option.some "c1", Option.some ParamKey.cell⟩
        [FComp.cellValue "c1" Option.none Scalar.none]
        [[("text", Scalar.str "hello")]] ["text"]).1 = Option.none ∨
      ∃ ref v f', resolveSlot [FComp.cellValue "c1" Option.none Scalar.none]
          "c1" ParamKey.cell ref v = Option.some f' ∧
        (handle_text_cell_selection (Option.some ⟨0, "text"⟩)
          ⟨Option.some "c1", Option.some ParamKey.cell⟩
          [FComp.cellValue "c1" Option.none Scalar.none]
          [[("text", Scalar.str "hello")]] ["text"]).1 = Option.some f') :=
  listening_click_resets_to_idle (Option.some ⟨0, "text"⟩)
    ⟨Option.some "c1", Option.some ParamKey.cell⟩
    [FComp.cellValue "c1" Option.none Scalar.none]
    [[("text", Scalar.str "hello")]] ["text"] "c1" ParamKey.cell rfl rfl

/-! ## Lemmas about the lookup dictionaries -/

lemma matchPairsAux_append (kc : KeyCol) (rows : List MatchRow) (r : MatchRow) :
    ∀ n, matchPairsAux kc n (rows ++ [r]) =
      matchPairsAux kc n rows ++ [(keyVal kc r, n + rows.length + 1)] := by
  induction rows with
  | nil => intro n; simp [matchPairsAux]
  | cons a t ih =>
    intro n
    show (keyVal kc a, n + 1) :: matchPairsAux kc (n + 1) (t ++ [r]) =
      ((keyVal kc a, n + 1) :: matchPairsAux kc (n + 1) t) ++
        [(keyVal kc r, n + (t.length + 1) + 1)]
    rw [ih (n + 1), List.cons_append]
    have harith : n + 1 + t.length + 1 = n + (t.length + 1) + 1 := by omega
    rw [harith]

lemma rowPairsAux_append (rows : List MatchRow) (r : MatchRow) :
    ∀ n, rowPairsAux n (rows ++ [r]) =
      rowPairsAux n rows ++ [(n + rows.length + 1, r)] := by
  induction rows with
  | nil => intro n; simp [rowPairsAux]
  | cons a t ih =>
    intro n
    show (n + 1, a) :: rowPairsAux (n + 1) (t ++ [r]) =
      ((n + 1, a) :: rowPairsAux (n + 1) t) ++ [(n + (t.length + 1) + 1, r)]
    rw [ih (n + 1), List.cons_append]
    have harith : n + 1 + t.length + 1 = n + (t.length + 1) + 1 := by omega
    rw [harith]

lemma pyDictGet_append {α β : Type} [DecidableEq α] (ps : List (α × β)) (q : α × β)
    (k : α) : pyDictGet (ps ++ [q]) k =
      if q.1 = k then Option.some q.2 else pyDictGet ps k := by
  unfold pyDictGet
  rw [List.reverse_append]
  by_cases h : q.1 = k
  · simp [List.find?_cons_of_pos, h]
  · simp only [List.reverse_singleton, List.singleton_append]
    rw [List.find?_cons_of_neg _ (by simp [h])]
    simp [h]

lemma matchLookup_append_eq (rows : List MatchRow) (kc : KeyCol) (r : MatchRow)
    (v : String) (h : keyVal kc r = v) :
    matchLookup (rows ++ [r]) kc v = Option.some (rows.length + 1) := by
  unfold matchLookup
  rw [matchPairsAux_append kc rows r 0, pyDictGet_append]
  simp [h]

lemma matchLookup_append_ne (rows : List MatchRow) (kc : KeyCol) (r : MatchRow)
    (v : String) (h : keyVal kc r ≠ v) :
    matchLookup (rows ++ [r]) kc v = matchLookup rows kc v := by
  unfold matchLookup
  rw [matchPairsAux_append kc rows r 0, pyDictGet_append]
  simp [h]

lemma rowLookup_append_last (rows : List MatchRow) (r : MatchRow) :
    rowLookup (rows ++ [r]) (rows.length + 1) = Option.some r := by
  unfold rowLookup
  rw [rowPairsAux_append rows r 0, pyDictGet_append]
  simp

lemma rowLookup_append_ne (rows : List MatchRow) (r : MatchRow) (k : Nat)
    (h : k ≠ rows.length + 1) :
    rowLookup (rows ++ [r]) k = rowLookup rows k := by
  unfold rowLookup
  rw [rowPairsAux_append rows r 0, pyDictGet_append]
  simp
  intro he
  omega

lemma matchLookup_mem_spec (t : List MatchRow) (kc : KeyCol) (v : String)
    (hv : v ∈ t.map (keyVal kc)) :
    ∃ r row, matchLookup t kc v = Option.some r ∧ 1 ≤ r ∧ r ≤ t.length ∧
      t[r - 1]? = Option.some row ∧ keyVal kc row = v ∧
      rowLookup t r = Option.some row := by
  induction t using List.reverseRecOn with
  | nil => simp at hv
  | append_singleton rows last ih =>
    by_cases h : keyVal kc last = v
    · refine ⟨rows.length + 1, last, matchLookup_append_eq rows kc last v h,
        by omega, by simp, ?_, h, rowLookup_append_last rows last⟩
      have : rows.length + 1 - 1 = rows.length := by omega
      rw [this, List.getElem?_concat_length]
    · have hv' : v ∈ rows.map (keyVal kc) := by
        rw [List.map_append] at hv
        rcases List.mem_append.mp hv with h1 | h2
        · exact h1
        · simp at h2
          exact absurd h2.symm h
      obtain ⟨r, row, h1, h2, h3, h4, h5, h6⟩ := ih hv'
      refine ⟨r, row, (matchLookup_append_ne rows kc last v h).trans h1, h2,
        by simp; omega, ?_, h5, ?_⟩
      · rw [List.getElem?_append_left (by omega : r - 1 < rows.length)]
        exact h4
      · rw [rowLookup_append_ne rows last r (by omega)]
        exact h6

/-- C6: for every value occurring in a key column (seat or name) of the
match table, MATCH returns a 1-based row number `r` of a row whose key
column holds that value, and INDEX on the same table at position `r`
returns exactly the value stored in row `r` of the requested column — the
manual lookup.  (The non-empty-value hypothesis reflects the calculator's
falsy-input check; key cells in the loaded table are non-empty strings.) -/
theorem index_of_match_is_manual_lookup (t : List MatchRow) (kc col : KeyCol)
    (v : String) (hv : v ∈ t.map (keyVal kc)) (hne : v ≠ "") :
    ∃ r row, matchLookup t kc v = Option.some r ∧ 1 ≤ r ∧ r ≤ t.length ∧
      t[r - 1]? = Option.some row ∧ keyVal kc row = v ∧
      calculate_match_result t (Option.some kc) (Option.some v) =
        "Result: " ++ toString r ∧
      calculate_index_result t (Option.some col) (Option.some (r : Int)) =
        "Result: " ++ keyVal col row := by
  obtain ⟨r, row, h1, h2, h3, h4, h5, h6⟩ := matchLookup_mem_spec t kc v hv
  refine ⟨r, row, h1, h2, h3, h4, h5, ?_, ?_⟩
  · simp [calculate_match_result, hne, h1]
  · have hp : ¬ ((r : Int) ≤ 0) := by omega
    have ht : (r : Int).toNat = r := by omega
    simp [calculate_index_result, hp, ht, h6]

/-- Witness for C6 at a concrete two-row table: MATCH on the seat key then
INDEX on the name column returns that row's name. -/
theorem index_of_match_is_manual_lookup_witness :
    ∃ r row,
      matchLookup [⟨"AK-AL", "Nick Begich"⟩, ⟨"AL-1", "Barry Moore"⟩]
          KeyCol.seat "AL-1" = Option.some r ∧
      1 ≤ r ∧ r ≤ ([⟨"AK-AL", "Nick Begich"⟩, ⟨"AL-1", "Barry Moore"⟩] :
        List MatchRow).length ∧
      ([⟨"AK-AL", "Nick Begich"⟩, ⟨"AL-1", "Barry Moore"⟩] :
        List MatchRow)[r - 1]? = Option.some row ∧
      keyVal KeyCol.seat row = "AL-1" ∧
      calculate_match_result [⟨"AK-AL", "Nick Begich"⟩, ⟨"AL-1", "Barry Moore"⟩]
          (Option.some KeyCol.seat) (Option.some "AL-1") = "Result: " ++ toString r ∧
      calculate_index_result [⟨"AK-AL", "Nick Begich"⟩, ⟨"AL-1", "Barry Moore"⟩]
          (Option.some KeyCol.name) (Option.some (r : Int)) =
        "Result: " ++ keyVal KeyCol.name row :=
  index_of_match_is_manual_lookup
    [⟨"AK-AL", "Nick Begich"⟩, ⟨"AL-1", "Barry Moore"⟩]
    KeyCol.seat KeyCol.name "AL-1" (by decide) (by decide)

/-- C9: when a key value occurs in several rows of the match table's key
column, MATCH returns the 1-based row number of the *last* occurrence —
the dictionary is built front to back with later rows overwriting earlier
entries — not the first occurrence Excel's exact-match MATCH would
return. -/
theorem match_returns_last_occurrence (t : List MatchRow) (kc : KeyCol) (v : String)
    (i : Nat) (row : MatchRow) (hrow : t[i]? = Option.some row)
    (hv : keyVal kc row = v)
    (hlast : ∀ (j : Nat) (row' : MatchRow), i < j → t[j]? = Option.some row' →
      keyVal kc row' ≠ v) :
    matchLookup t kc v = Option.some (i + 1) := by
  induction t using List.reverseRecOn with
  | nil => simp at hrow
  | append_singleton rows last ih =>
    by_cases hi : i = rows.length
    · subst hi
      rw [List.getElem?_concat_length] at hrow
      injection hrow with hrow
      subst hrow
      exact matchLookup_append_eq rows kc last v hv
    · have hilt : i < rows.length := by
        have hlen : i < (rows ++ [last]).length := by
          by_contra hc
          rw [List.getElem?_eq_none (by omega)] at hrow
          exact absurd hrow (by simp)
        simp at hlen
        omega
      have hne : keyVal kc last ≠ v := by
        refine hlast rows.length last hilt ?_
        rw [List.getElem?_concat_length]
      rw [matchLookup_append_ne rows kc last v hne]
      refine ih ?_ ?_
      · rw [List.getElem?_append_left hilt] at hrow
        exact hrow
      · intro j row' hij hj
        refine hlast j row' hij ?_
        have hjlt : j < rows.length := by
          by_contra hc
          rw [List.getElem?_eq_none (by omega)] at hj
          exact absurd hj (by simp)
        rw [List.getElem?_append_left hjlt]
        exact hj

/-- Witness for C9 at a concrete duplicate-key table: the seat "AK-AL"
occurs in rows 1 and 2 and MATCH returns 2 (the last), not 1. -/
theorem match_returns_last_occurrence_witness :
    matchLookup [⟨"AK-AL", "First"⟩, ⟨"AK-AL", "Second"⟩] KeyCol.seat "AK-AL" =
      Option.some (1 + 1) :=
  match_returns_last_occurrence [⟨"AK-AL", "First"⟩, ⟨"AK-AL", "Second"⟩]
    KeyCol.seat "AK-AL" 1 ⟨"AK-AL", "Second"⟩ (by decide) (by decide)
    (by
      intro j row' hij hj
      have : j ≥ 2 := by omega
      rw [List.getElem?_eq_none (by simpa using this)] at hj
      exact absurd hj (by simp))

/-! ## Lemmas about the conditional evaluators -/

lemma ifsLinesAux_spec (col q2 q3 q5 q6 q7 : String) :
    ∀ (t : List TableRow) (n : Nat),
      (∀ row ∈ t, (rowGet row col).isSome) →
      ∃ lines, ifsLinesAux col q2 q3 q5 q6 q7 n t = Option.some lines ∧
        lines.length = t.length ∧
        ∀ k, k < t.length → ∃ v row, t[k]? = Option.some row ∧
          rowGet row col = Option.some v ∧
          lines[k]? = Option.some
            (toString (n + k) ++ ". " ++ ifsBranch v q2 q3 q5 q6 q7) := by
  intro t
  induction t with
  | nil =>
    intro n hall
    exact ⟨[], rfl, rfl, fun k hk => absurd hk (by simp)⟩
  | cons row rest ih =>
    intro n hall
    have hrow : (rowGet row col).isSome := hall row (by simp)
    obtain ⟨v, hval⟩ : ∃ v, rowGet row col = Option.some v :=
      Option.isSome_iff_exists.mp hrow
    obtain ⟨lines, h1, h2, h3⟩ := ih (n + 1) (fun r hr => hall r (by simp [hr]))
    refine ⟨(toString n ++ ". " ++ ifsBranch v q2 q3 q5 q6 q7) :: lines, ?_, by simp [h2], ?_⟩
    · simp [ifsLinesAux, hval, h1]
    · intro k hk
      cases k with
      | zero => exact ⟨v, row, by simp, hval, by simp⟩
      | succ m =>
        obtain ⟨v', row', g1, g2, g3⟩ := h3 m (by simpa using hk)
        refine ⟨v', row', by simpa using g1, g2, ?_⟩
        have : n + 1 + m = n + (m + 1) := by omega
        rw [← this]
        simpa using g3

/-- C7: with all seven IFS parameters set (and the selected column present
in every row, as it is for a column picked from the table), the IFS
evaluator emits exactly one line per row of the conditional table, numbered
from 1, each row's value being the first branch literal if the selected
column's value equals the first compare literal (as strings), else the
second branch literal on the second compare, else the default literal. -/
theorem ifs_one_line_per_row (t : List TableRow) (c1 : CondCellSel)
    (q2 q3 q5 q6 q7 : String) (p4 : CondCellSel)
    (hcols : ∀ row ∈ t, (rowGet row c1.column_id).isSome) :
    ∃ lines,
      calculate_ifs_results t (Option.some c1) (Option.some q2) (Option.some q3)
          (Option.some p4) (Option.some q5) (Option.some q6) (Option.some q7) =
        String.intercalate "\n" ("Results:" :: lines) ∧
      lines.length = t.length ∧
      ∀ k, k < t.length → ∃ v row, t[k]? = Option.some row ∧
        rowGet row c1.column_id = Option.some v ∧
        lines[k]? = Option.some (toString (k + 1) ++ ". " ++
          (if pyStr v = q2 then q3 else if pyStr v = q5 then q6 else q7)) := by
  obtain ⟨lines, h1, h2, h3⟩ :=
    ifsLinesAux_spec c1.column_id q2 q3 q5 q6 q7 t 1 hcols
  refine ⟨lines, ?_, h2, ?_⟩
  · simp [calculate_ifs_results, h1]
  · intro k hk
    obtain ⟨v, row, g1, g2, g3⟩ := h3 k hk
    refine ⟨v, row, g1, g2, ?_⟩
    have : 1 + k = k + 1 := by omega
    rw [this] at g3
    exact g3

/-- Witness for C7: the spec scenario — a row with party "Independent"
under branches Democrat→"blue", Republican→"red", default "yellow" yields
the line "1. yellow". -/
theorem ifs_one_line_per_row_witness :
    ∃ lines,
      calculate_ifs_results [[("party", Scalar.str "Independent")]]
          (Option.some ⟨Scalar.str "Democrat", "party"⟩) (Option.some "Democrat")
          (Option.some "blue") (Option.some ⟨Scalar.str "Democrat", "party"⟩)
          (Option.some "Republican") (Option.some "red") (Option.some "yellow") =
        String.intercalate "\n" ("Results:" :: lines) ∧
      lines.length = ([[("party", Scalar.str "Independent")]] : List TableRow).length ∧
      ∀ k, k < ([[("party", Scalar.str "Independent")]] : List TableRow).length →
        ∃ v row, ([[("party", Scalar.str "Independent")]] : List TableRow)[k]? =
            Option.some row ∧
          rowGet row "party" = Option.some v ∧
          lines[k]? = Option.some (toString (k + 1) ++ ". " ++
            (if pyStr v = "Democrat" then "blue"
              else if pyStr v = "Republican" then "red" else "yellow")) :=
  ifs_one_line_per_row [[("party", Scalar.str "Independent")]]
    ⟨Scalar.str "Democrat", "party"⟩ "Democrat" "blue" "Republican" "red" "yellow"
    ⟨Scalar.str "Democrat", "party"⟩ (by decide)

lemma splitFirst_eq_none_of_not_sub (d : List Char) :
    ∀ s : List Char, isSubList d s = false → splitFirst d s = Option.none := by
  intro s
  induction s with
  | nil => intro _; rfl
  | cons c rest ih =>
    intro h
    rw [isSubList, Bool.or_eq_false_iff] at h
    rw [splitFirst, if_neg (by simp [h.1]), ih h.2]
    rfl

lemma textbefore_err_of_no_dash (seat : Scalar)
    (h : isSubstr "-" (toStrSafe seat) = false) :
    excel_textbefore seat (Scalar.str "-") =
      "Error: Delimiter '-' not found in text." := by
  rw [excel_textbefore]
  rw [show toStrSafe (Scalar.str "-") = "-" from rfl]
  rw [if_neg (by decide)]
  rw [splitFirst_eq_none_of_not_sub _ _ h]
  decide

/-- C10: in the IF evaluator's false branch, a row whose seat value does
not contain "-" has its TEXTBEFORE error swallowed — the full unmodified
seat value is used instead — so such a row's line embeds the whole seat;
and whenever the seat-splitting result contains "Error:" at all, that text
came from the seat value itself, so the splitting step never surfaces an
error of its own into the output. -/
theorem if_false_branch_swallows_textbefore_error :
    (∀ seat : Scalar, isSubstr "-" (toStrSafe seat) = false →
      ifFalseSeatInfo seat = seat) ∧
    (∀ seat : Scalar, isSubstr "Error:" (pyStr (ifFalseSeatInfo seat)) = true →
      isSubstr "Error:" (pyStr seat) = true) ∧
    (∀ (q2 q3 q4 col : String) (row : TableRow) (v nm pty st : Scalar),
      rowGet row col = Option.some v → rowGet row "name" = Option.some nm →
      rowGet row "party" = Option.some pty → rowGet row "seat" = Option.some st →
      pyStr v ≠ q2 → isSubstr "-" (toStrSafe st) = false →
      ifRowLine q2 q3 q4 col row = Option.some
        (q4 ++ pyStr nm ++ " (" ++ excel_left pty (Scalar.int 1) ++ "-" ++
          pyStr st ++ ")")) := by
  have key : ∀ seat : Scalar, isSubstr "-" (toStrSafe seat) = false →
      ifFalseSeatInfo seat = seat := by
    intro seat h
    rw [ifFalseSeatInfo, textbefore_err_of_no_dash seat h]
    rw [if_pos (by decide)]
  refine ⟨key, ?_, ?_⟩
  · intro seat h
    simp only [ifFalseSeatInfo] at h ⊢
    by_cases hcase :
        isSubstr "Error:" (excel_textbefore seat (Scalar.str "-")) = true
    · rw [if_pos hcase] at h
      exact h
    · rw [if_neg hcase] at h
      exact absurd h (by simp_all [pyStr])
  · intro q2 q3 q4 col row v nm pty st h1 h2 h3 h4 h5 h6
    simp only [ifRowLine, h1, h2, h3, h4]
    rw [if_neg h5, key st h6]

/-- Witness for C10: the seat "Vermont" has no "-", so the false-branch
line for that row carries the full seat string. -/
theorem if_false_branch_swallows_textbefore_error_witness :
    ifFalseSeatInfo (Scalar.str "Vermont") = Scalar.str "Vermont" ∧
    ifRowLine "House" "Rep. " "Sen. " "chamber"
        [("chamber", Scalar.str "Senate"), ("name", Scalar.str "Peter Welch"),
          ("party", Scalar.str "Democrat"), ("seat", Scalar.str "Vermont")] =
      Option.some ("Sen. " ++ pyStr (Scalar.str "Peter Welch") ++ " (" ++
        excel_left (Scalar.str "Democrat") (Scalar.int 1) ++ "-" ++
        pyStr (Scalar.str "Vermont") ++ ")") :=
  ⟨if_false_branch_swallows_textbefore_error.1 (Scalar.str "Vermont") (by decide),
    if_false_branch_swallows_textbefore_error.2.2 "House" "Rep. " "Sen. " "chamber"
      [("chamber", Scalar.str "Senate"), ("name", Scalar.str "Peter Welch"),
        ("party", Scalar.str "Democrat"), ("seat", Scalar.str "Vermont")]
      (Scalar.str "Senate") (Scalar.str "Peter Welch") (Scalar.str "Democrat")
      (Scalar.str "Vermont") (by decide) (by decide) (by decide) (by decide)
      (by decide) (by decide)⟩
